import Mathlib

/-!
Verification of the ship-proxy-system repository (ship proxy client,
offshore proxy server, and their shared framing protocol).

The Python sources are shallowly embedded:

* `utils/protocol.py`  — byte streams are `List Nat` (each element a byte
  value 0..255); `send_message` / `read_message` become pure functions over
  such lists.
* `server/server.py`   — the offshore request processing pipeline
  (`process_http_request`, `make_http_request`, `handle_connect_method`,
  `create_error_response`, `handle_ship_connection`).  Decoded text is a
  `List Nat` of Unicode code points; the origin HTTP fetch is an oracle
  parameter.
* `client/client.py`   — the multiplexer worker (`process_requests`) and
  `connect_to_offshore`.  Socket I/O results are supplied by scripts
  (lists of results consumed in order), and the model records a trace of
  I/O events plus the bytes successfully written on the link.
-/

/-! ## Frame codec: `utils/protocol.py` -/

/-- Message type constant `MSG_REQUEST = 0` from `utils/protocol.py`. -/
def MSG_REQUEST : Nat := 0

/-- Message type constant `MSG_RESPONSE = 1` from `utils/protocol.py`. -/
def MSG_RESPONSE : Nat := 1

/-- Big-endian 4-byte encoding, `struct.pack('>I', n)` (for `n < 2^32`). -/
def toBE4 (n : Nat) : List Nat :=
  [n / 16777216 % 256, n / 65536 % 256, n / 256 % 256, n % 256]

/-- Big-endian 4-byte decoding, `struct.unpack('>I', b)`. -/
def fromBE4 (b0 b1 b2 b3 : Nat) : Nat :=
  ((b0 * 256 + b1) * 256 + b2) * 256 + b3

/-- The wire image of one frame: 4-byte big-endian payload length, one type
byte, then the payload (the `header + payload` built in `send_message`). -/
def frameBytes (msgType : Nat) (payload : List Nat) : List Nat :=
  toBE4 payload.length ++ msgType :: payload

/-- Embeds `send_message` from `utils/protocol.py`.  `struct.pack('>I', ...)`
raises for a length `≥ 2^32` and `struct.pack('B', ...)` raises for a type
`≥ 256`; the `except` clause turns any such exception into a `False` return
(modelled as `none`, nothing written).  Otherwise the frame bytes are sent
with `sock.sendall` in one call. -/
def sendMessage (msgType : Nat) (payload : List Nat) : Option (List Nat) :=
  if msgType < 256 ∧ payload.length < 4294967296 then some (frameBytes msgType payload)
  else none

/-- Embeds `read_message` from `utils/protocol.py` over a byte stream.
`_read_exact(sock, 5)` yields the header only when at least 5 bytes remain
(a shorter stream is a closed connection, timeout, or error — all of which
`_read_exact` collapses to `None`); the payload length is decoded from the
first 4 bytes with no maximum-size check, the type byte is taken as-is, and
`_read_exact(sock, payload_length)` succeeds only when that many bytes
remain.  The result is the message plus the unconsumed rest of the stream;
`none` models the `(None, None)` return. -/
def readMessage : List Nat → Option (Nat × List Nat × List Nat)
  | b0 :: b1 :: b2 :: b3 :: t :: rest =>
    if fromBE4 b0 b1 b2 b3 ≤ rest.length then
      some (t, rest.take (fromBE4 b0 b1 b2 b3), rest.drop (fromBE4 b0 b1 b2 b3))
    else none
  | _ => none

theorem fromBE4_toBE4 (n : Nat) (h : n < 4294967296) :
    fromBE4 (n / 16777216 % 256) (n / 65536 % 256) (n / 256 % 256) (n % 256) = n := by
  unfold fromBE4
  omega

/-- Reading a stream that starts with a well-formed frame returns that
frame's type and payload and leaves the rest of the stream untouched. -/
theorem readMessage_frameBytes (t : Nat) (p rest : List Nat)
    (h : p.length < 4294967296) :
    readMessage (frameBytes t p ++ rest) = some (t, p, rest) := by
  unfold frameBytes toBE4
  simp only [List.cons_append, List.nil_append, readMessage, fromBE4_toBE4 p.length h,
    List.length_append, Nat.le_add_right, if_pos]
  rw [List.take_left, List.drop_left]

/-- Claim C2: for every byte string `p` with `|p| ≤ 64 MiB` and every type
`t ∈ {REQUEST, RESPONSE}`, `send_message` succeeds and emits a frame, and
`read_message` applied to that frame yields exactly `(t, p)` (consuming the
whole stream). -/
theorem frame_roundtrip (t : Nat) (p : List Nat)
    (ht : t = MSG_REQUEST ∨ t = MSG_RESPONSE) (hp : p.length ≤ 67108864) :
    ∃ w, sendMessage t p = some w ∧ readMessage w = some (t, p, []) := by
  have ht' : t < 256 := by rcases ht with h | h <;> simp [h, MSG_REQUEST, MSG_RESPONSE]
  have hp' : p.length < 4294967296 := by omega
  refine ⟨frameBytes t p, ?_, ?_⟩
  · simp [sendMessage, ht', hp']
  · have := readMessage_frameBytes t p [] hp'
    simpa using this

/-- Witness for C2 at a concrete frame. -/
theorem frame_roundtrip_witness :
    ∃ w, sendMessage 1 [104, 105] = some w ∧ readMessage w = some (1, [104, 105], []) :=
  frame_roundtrip 1 [104, 105] (Or.inr rfl) (by decide)

/-- Counterexample to claim C4 as stated: a frame carrying a 65 MiB payload
(65 · 2^20 = 68157440 bytes) is *not* rejected by `read_message`; the read
succeeds and returns the whole payload, because `read_message` contains no
check of `payload_length` against any maximum. -/
theorem readMessage_no_size_limit_counterexample :
    readMessage (frameBytes 0 (List.replicate 68157440 0)) =
      some (0, List.replicate 68157440 0, []) ∧
    readMessage (frameBytes 0 (List.replicate 68157440 0)) ≠ none := by
  have h : (List.replicate 68157440 (0 : Nat)).length < 4294967296 := by
    rw [List.length_replicate]; norm_num
  have h2 := readMessage_frameBytes 0 (List.replicate 68157440 0) [] h
  rw [List.append_nil] at h2
  refine ⟨h2, ?_⟩
  rw [h2]
  intro hn
  exact Option.noConfusion hn

/-- Claim C4 (amended): `read_message` performs no maximum-length
validation at all.  Every frame whose `payload_length` fits the 4-byte
header (any value up to `2^32 − 1`, 65 MiB included) is read in full
whenever the stream holds the payload bytes; no protocol-error rejection of
oversized frames exists. -/
theorem readMessage_reads_any_length (t : Nat) (p rest : List Nat)
    (h : p.length < 4294967296) :
    readMessage (frameBytes t p ++ rest) = some (t, p, rest) :=
  readMessage_frameBytes t p rest h

/-- Witness for the amended C4 at a concrete frame. -/
theorem readMessage_reads_any_length_witness :
    readMessage (frameBytes 5 [1, 2, 3] ++ [9]) = some (5, [1, 2, 3], [9]) :=
  readMessage_reads_any_length 5 [1, 2, 3] [9] (by decide)

/-- Claim C10: `read_message` is total with a single failure value.  (a) A
stream shorter than the 5-byte header yields `none` (the `(None, None)`
return: end-of-stream, timeout and exceptions are all collapsed by
`_read_exact` into that one value).  (b) A header announcing more payload
bytes than the stream holds (end-of-stream mid-payload) also yields `none`.
(c) The type byte is not validated: any value 0–255 in the header is
returned to the caller exactly as read. -/
theorem readMessage_total_unvalidated :
    (∀ s : List Nat, s.length < 5 → readMessage s = none) ∧
    (∀ b0 b1 b2 b3 t : Nat, ∀ rest : List Nat,
      rest.length < fromBE4 b0 b1 b2 b3 →
      readMessage (b0 :: b1 :: b2 :: b3 :: t :: rest) = none) ∧
    (∀ t : Nat, ∀ p : List Nat, t < 256 → p.length < 4294967296 →
      readMessage (frameBytes t p) = some (t, p, [])) := by
  refine ⟨?_, ?_, ?_⟩
  · intro s hs
    match s with
    | [] => rfl
    | [_] => rfl
    | [_, _] => rfl
    | [_, _, _] => rfl
    | [_, _, _, _] => rfl
    | _ :: _ :: _ :: _ :: _ :: _ => simp at hs; omega
  · intro b0 b1 b2 b3 t rest hlt
    rw [readMessage, if_neg (by omega)]
  · intro t p _ hp
    have := readMessage_frameBytes t p [] hp
    simpa using this

/-- Witness for C10: instances of all three conjuncts at concrete streams
(a 2-byte stream; a header announcing 5 payload bytes over a 1-byte rest; a
frame whose type byte 200 is neither REQUEST nor RESPONSE yet is returned
as-is). -/
theorem readMessage_total_unvalidated_witness :
    readMessage [1, 2] = none ∧
    readMessage [0, 0, 0, 5, 1, 9] = none ∧
    readMessage (frameBytes 200 [65]) = some (200, [65], []) :=
  ⟨readMessage_total_unvalidated.1 [1, 2] (by decide),
   readMessage_total_unvalidated.2.1 0 0 0 5 1 [9] (by decide),
   readMessage_total_unvalidated.2.2 200 [65] (by decide) (by decide)⟩

/-! ## Text utilities: Python string/bytes operations used by the sources

Decoded text is represented as a `List Nat` of Unicode code points. -/

/-- Code points of a string literal (used to transcribe the Python string
literals appearing in the sources). -/
def strCp (s : String) : List Nat := s.data.map Char.toNat

/-- The characters Python `str.strip()` removes (`str.isspace`). -/
def isPySpace (c : Nat) : Bool :=
  c == 9 || c == 10 || c == 11 || c == 12 || c == 13 || c == 28 || c == 29 ||
  c == 30 || c == 31 || c == 32 || c == 133 || c == 160 || c == 5760 ||
  (8192 ≤ c && c ≤ 8202) || c == 8232 || c == 8233 || c == 8239 ||
  c == 8287 || c == 12288

/-- Python `str.strip()`: drop leading and trailing whitespace. -/
def pyStrip (l : List Nat) : List Nat :=
  ((l.dropWhile isPySpace).reverse.dropWhile isPySpace).reverse

/-- Python `s.split('\r\n')`: non-overlapping left-to-right split on the
two-character separator.  Always returns at least one (possibly empty)
piece, like the Python method. -/
def splitCRLF : List Nat → List (List Nat)
  | [] => [[]]
  | [c] => [[c]]
  | c :: c' :: rest =>
    if c = 13 ∧ c' = 10 then [] :: splitCRLF rest
    else (splitCRLF (c' :: rest)).modifyHead (c :: ·)

/-- Python `s.split(sep)` for a one-character separator. -/
def splitChar (sep : Nat) : List Nat → List (List Nat)
  | [] => [[]]
  | c :: rest =>
    if c = sep then [] :: splitChar sep rest
    else (splitChar sep rest).modifyHead (c :: ·)

/-- Python `'\r\n'.join(pieces)`. -/
def pyJoinCRLF : List (List Nat) → List Nat
  | [] => []
  | [l] => l
  | l :: l' :: ls => l ++ 13 :: 10 :: pyJoinCRLF (l' :: ls)

/-- Python `s.split(sep, 1)` where `sep ∈ s` is already known: the piece
before the first separator and the piece after it. -/
def splitFirstAt (sep : Nat) : List Nat → List Nat × List Nat
  | [] => ([], [])
  | c :: rest =>
    if c = sep then ([], rest)
    else
      let p := splitFirstAt sep rest
      (c :: p.1, p.2)

/-- ASCII restriction of Python `str.upper()` (the sources only compare the
result against the ASCII literal `'CONNECT'`). -/
def asciiUpper (l : List Nat) : List Nat :=
  l.map fun c => if 97 ≤ c ∧ c ≤ 122 then c - 32 else c

/-- ASCII restriction of Python `str.lower()` (used on header names). -/
def asciiLower (l : List Nat) : List Nat :=
  l.map fun c => if 65 ≤ c ∧ c ≤ 90 then c + 32 else c

/-- Decimal rendering of a number, as in a Python f-string `{n}`. -/
def natCp (n : Nat) : List Nat := (Nat.toDigits 10 n).map Char.toNat

/-- A UTF-8 continuation byte. -/
def isCont (b : Nat) : Bool := 128 ≤ b && b ≤ 191

/-- Admissible first continuation byte after a 3-byte lead (WHATWG/Python
ranges: `E0` requires `A0..BF`, `ED` requires `80..9F`). -/
def cont1ok3 (b b1 : Nat) : Bool :=
  if b = 224 then 160 ≤ b1 && b1 ≤ 191
  else if b = 237 then 128 ≤ b1 && b1 ≤ 159
  else isCont b1

/-- Admissible first continuation byte after a 4-byte lead (`F0` requires
`90..BF`, `F4` requires `80..8F`). -/
def cont1ok4 (b b1 : Nat) : Bool :=
  if b = 240 then 144 ≤ b1 && b1 ≤ 191
  else if b = 244 then 128 ≤ b1 && b1 ≤ 143
  else isCont b1

/-- Python `bytes.decode('utf-8', errors='replace')`: bytes to code points,
each maximal subpart of an ill-formed sequence replaced by one U+FFFD
(65533), as CPython does. -/
def utf8DecodeReplace : List Nat → List Nat
  | [] => []
  | b :: rest =>
    if b < 128 then b :: utf8DecodeReplace rest
    else if 194 ≤ b ∧ b ≤ 223 then
      match rest with
      | b1 :: r =>
        if isCont b1 then ((b - 192) * 64 + (b1 - 128)) :: utf8DecodeReplace r
        else 65533 :: utf8DecodeReplace (b1 :: r)
      | [] => [65533]
    else if 224 ≤ b ∧ b ≤ 239 then
      match rest with
      | b1 :: r =>
        if cont1ok3 b b1 then
          match r with
          | b2 :: r2 =>
            if isCont b2 then
              ((b - 224) * 4096 + (b1 - 128) * 64 + (b2 - 128)) :: utf8DecodeReplace r2
            else 65533 :: utf8DecodeReplace (b2 :: r2)
          | [] => [65533]
        else 65533 :: utf8DecodeReplace (b1 :: r)
      | [] => [65533]
    else if 240 ≤ b ∧ b ≤ 244 then
      match rest with
      | b1 :: r =>
        if cont1ok4 b b1 then
          match r with
          | b2 :: r2 =>
            if isCont b2 then
              match r2 with
              | b3 :: r3 =>
                if isCont b3 then
                  ((b - 240) * 262144 + (b1 - 128) * 4096 + (b2 - 128) * 64 + (b3 - 128)) ::
                    utf8DecodeReplace r3
                else 65533 :: utf8DecodeReplace (b3 :: r3)
              | [] => [65533]
            else 65533 :: utf8DecodeReplace (b2 :: r2)
          | [] => [65533]
        else 65533 :: utf8DecodeReplace (b1 :: r)
      | [] => [65533]
    else 65533 :: utf8DecodeReplace rest

/-- UTF-8 encoding of one code point (`str.encode('utf-8')`, per
character). -/
def utf8EncodeChar (c : Nat) : List Nat :=
  if c < 128 then [c]
  else if c < 2048 then [192 + c / 64, 128 + c % 64]
  else if c < 65536 then [224 + c / 4096, 128 + c / 64 % 64, 128 + c % 64]
  else [240 + c / 262144, 128 + c / 4096 % 64, 128 + c / 64 % 64, 128 + c % 64]

/-- Python `str.encode('utf-8')` over a code-point list. -/
def utf8Encode (l : List Nat) : List Nat := (l.map utf8EncodeChar).flatten

theorem utf8Encode_append (a b : List Nat) :
    utf8Encode (a ++ b) = utf8Encode a ++ utf8Encode b := by
  unfold utf8Encode
  rw [List.map_append, List.flatten_append]

theorem utf8DecodeReplace_ascii (l : List Nat) (h : ∀ b ∈ l, b < 128) :
    utf8DecodeReplace l = l := by
  induction l with
  | nil => rfl
  | cons b rest ih =>
    have hb : b < 128 := h b (List.mem_cons_self b rest)
    rw [utf8DecodeReplace.eq_def]
    dsimp only
    rw [if_pos hb, ih fun x hx => h x (List.mem_cons_of_mem b hx)]

theorem utf8Encode_ascii (l : List Nat) (h : ∀ b ∈ l, b < 128) :
    utf8Encode l = l := by
  induction l with
  | nil => rfl
  | cons b rest ih =>
    have hb : b < 128 := h b (List.mem_cons_self b rest)
    have : utf8EncodeChar b = [b] := by rw [utf8EncodeChar, if_pos hb]
    unfold utf8Encode at ih ⊢
    rw [List.map_cons, List.flatten_cons, this, ih fun x hx => h x (List.mem_cons_of_mem b hx)]
    rfl

/-- Replacing the head of a nonempty list keeps it nonempty. -/
theorem modifyHead_ne_nil (f : List Nat → List Nat) (l : List (List Nat)) (h : l ≠ []) :
    l.modifyHead f ≠ [] := by
  cases l with
  | nil => exact absurd rfl h
  | cons a as => simp [List.modifyHead]

theorem splitCRLF_ne_nil (l : List Nat) : splitCRLF l ≠ [] := by
  induction l using splitCRLF.induct with
  | case1 => simp [splitCRLF]
  | case2 c => simp [splitCRLF]
  | case3 c c' rest hc ih =>
    rw [splitCRLF, if_pos hc]
    simp
  | case4 c c' rest hc ih =>
    rw [splitCRLF, if_neg hc]
    exact modifyHead_ne_nil _ _ ih

theorem pyJoinCRLF_splitCRLF (l : List Nat) : pyJoinCRLF (splitCRLF l) = l := by
  induction l using splitCRLF.induct with
  | case1 => rfl
  | case2 c => rfl
  | case3 c c' rest hc ih =>
    obtain ⟨h13, h10⟩ := hc
    subst h13; subst h10
    rw [splitCRLF, if_pos ⟨rfl, rfl⟩]
    obtain ⟨a, as, ha⟩ : ∃ a as, splitCRLF rest = a :: as := by
      cases h : splitCRLF rest with
      | nil => exact absurd h (splitCRLF_ne_nil rest)
      | cons a as => exact ⟨a, as, rfl⟩
    rw [ha]
    rw [ha] at ih
    rw [pyJoinCRLF]
    simp [ih]
  | case4 c c' rest hc ih =>
    rw [splitCRLF, if_neg hc]
    obtain ⟨a, as, ha⟩ : ∃ a as, splitCRLF (c' :: rest) = a :: as := by
      cases h : splitCRLF (c' :: rest) with
      | nil => exact absurd h (splitCRLF_ne_nil _)
      | cons a as => exact ⟨a, as, rfl⟩
    rw [ha] at ih ⊢
    cases as with
    | nil =>
      rw [List.modifyHead, pyJoinCRLF]
      rw [pyJoinCRLF] at ih
      simp [ih]
    | cons a2 as2 =>
      rw [List.modifyHead, pyJoinCRLF]
      rw [pyJoinCRLF] at ih
      simp only [List.cons_append]
      rw [ih]

theorem splitCRLF_crlf (rest : List Nat) :
    splitCRLF (13 :: 10 :: rest) = [] :: splitCRLF rest := by
  rw [splitCRLF, if_pos ⟨rfl, rfl⟩]

theorem splitCRLF_line (l : List Nat) (h : 13 ∉ l) (rest : List Nat) :
    splitCRLF (l ++ 13 :: 10 :: rest) = l :: splitCRLF rest := by
  induction l with
  | nil =>
    rw [List.nil_append, splitCRLF_crlf]
  | cons c cs ih =>
    have hc : c ≠ 13 := fun hh => h (hh ▸ List.mem_cons_self c cs)
    have h' : 13 ∉ cs := fun hh => h (List.mem_cons_of_mem c hh)
    cases cs with
    | nil =>
      rw [List.cons_append, List.nil_append, splitCRLF, if_neg (fun hp => hc hp.1)]
      rw [splitCRLF_crlf, List.modifyHead]
    | cons c2 cs2 =>
      simp only [List.cons_append]
      rw [splitCRLF, if_neg (fun hp => hc hp.1)]
      rw [← List.cons_append, ih h', List.modifyHead]

/-! ## Offshore server model: `server/server.py` -/

/-- Outcome of the external origin fetch performed inside
`make_http_request` via `http.client`: a response (status, reason, header
pairs from `getheaders()`, body bytes from `read()`) or one of the
exception classes the code catches (`socket.timeout`, `socket.gaierror`,
`ConnectionRefusedError`, `ssl.SSLError`, any other `Exception`). -/
inductive FetchOutcome where
  | success (status : Nat) (reason : List Nat)
      (respHeaders : List (List Nat × List Nat)) (respBody : List Nat)
  | timeout
  | dnsFailure
  | refused
  | sslFailure (msg : List Nat)
  | otherFailure (msg : List Nat)
deriving DecidableEq

/-- The external origin HTTP client as an oracle, with the argument list of
`make_http_request`: method, host, port, path, headers, body, use_ssl. -/
def FetchFn : Type :=
  List Nat → List Nat → Nat → List Nat → List (List Nat × List Nat) → List Nat → Bool →
    FetchOutcome

/-- The `error_body` f-string of `create_error_response` (a triple-quoted
Python string, so its line breaks are bare `\n`). -/
def errorBodyCp (status : Nat) (reason : List Nat) : List Nat :=
  strCp "<!DOCTYPE html>\n<html>\n<head><title>" ++ natCp status ++ strCp " " ++ reason ++
  strCp "</title></head>\n<body>\n<h1>" ++ natCp status ++ strCp " " ++ reason ++
  strCp "</h1>\n<p>The offshore proxy server encountered an error.</p>\n<hr>\n<p><em>Offshore Proxy Server</em></p>\n</body>\n</html>"

/-- Embeds `create_error_response` from `server/server.py`.  `len(error_body)`
is a Python `str` length, i.e. a count of code points. -/
def createErrorResponse (status : Nat) (reason : List Nat) : List Nat :=
  utf8Encode (strCp "HTTP/1.1 " ++ natCp status ++ strCp " " ++ reason ++
    strCp "\r\nContent-Type: text/html\r\nContent-Length: " ++
    natCp (errorBodyCp status reason).length ++
    strCp "\r\nConnection: close\r\n\r\n" ++ errorBodyCp status reason)

/-- Embeds `handle_connect_method` from `server/server.py` (its `url` and
`connection_id` arguments are only logged): the literal stub response. -/
def handleConnectMethod : List Nat :=
  utf8Encode (strCp "HTTP/1.1 200 Connection Established\r\n\r\n")

/-- Python `str.startswith(pre)`. -/
def startsWithCp (pre l : List Nat) : Bool := l.take pre.length == pre

/-- Decimal digit test for the URL port text. -/
def allDigits (l : List Nat) : Bool := l.all fun c => 48 ≤ c && c ≤ 57

/-- Value of a decimal digit run. -/
def digitsToNat (l : List Nat) : Nat := l.foldl (fun acc c => acc * 10 + (c - 48)) 0

/-- Characters ending the netloc of a URL (`/`, `?`, `#`). -/
def notNetlocEnd (c : Nat) : Bool := c ≠ 47 && c ≠ 63 && c ≠ 35

/-- The pieces of `urllib.parse.urlparse` that `process_http_request`
reads: scheme, lowercased hostname, raw port text, path, query. -/
structure UrlParts where
  scheme : List Nat
  hostLower : List Nat
  portText : List Nat
  path : List Nat
  query : List Nat
deriving DecidableEq

/-- Model of `urllib.parse.urlparse` restricted to the inputs with which
`process_http_request` calls it: a URL beginning with `http://` or
`https://` (the code guarantees this before the call).  The netloc is the
segment before the first `/`, `?` or `#`; userinfo before the last `@` is
dropped; the hostname (before the first `:` of the host info) is
lowercased; the port text is whatever follows that `:`; the fragment after
`#` is dropped; the query follows the first `?`. -/
def pyUrlparseHttp (url : List Nat) : UrlParts :=
  let isHttp := startsWithCp (strCp "http://") url
  let scheme := if isHttp then strCp "http" else strCp "https"
  let rest := if isHttp then url.drop 7 else url.drop 8
  let netloc := rest.takeWhile notNetlocEnd
  let afterNetloc := rest.dropWhile notNetlocEnd
  let beforeFrag := afterNetloc.takeWhile fun c => c ≠ 35
  let path := beforeFrag.takeWhile fun c => c ≠ 63
  let query := (beforeFrag.dropWhile fun c => c ≠ 63).drop 1
  let hostinfo := (netloc.reverse.takeWhile fun c => c ≠ 64).reverse
  let hostname := asciiLower (hostinfo.takeWhile fun c => c ≠ 58)
  let portText := (hostinfo.dropWhile fun c => c ≠ 58).drop 1
  ⟨scheme, hostname, portText, path, query⟩

/-- A Python dict insert on an insertion-ordered association list:
overwrite in place on duplicate keys, else append. -/
def pyDictInsert (k v : List Nat) : List (List Nat × List Nat) → List (List Nat × List Nat)
  | [] => [(k, v)]
  | (k', v') :: rest => if k' = k then (k', v) :: rest else (k', v') :: pyDictInsert k v rest

/-- `dict.pop(k, None)`: drop the entry with exactly this key. -/
def pyDictRemove (k : List Nat) (d : List (List Nat × List Nat)) :
    List (List Nat × List Nat) :=
  d.filter fun kv => kv.1 != k

/-- The header/body scan of `process_http_request` over `lines[1:]`: stop
at the first line whose `strip()` is empty (the code's `body_start`
marker), recording the remaining lines (`lines[body_start:]`) as the body
lines; insert `key.strip(): value.strip()` for every earlier line that
contains `:`; lines without `:` are skipped.  `none` models `body_start`
staying `-1` (no blank line found). -/
def scanHeaders : List (List Nat) → List (List Nat × List Nat) →
    List (List Nat × List Nat) × Option (List (List Nat))
  | [], acc => (acc, none)
  | line :: rest, acc =>
    if pyStrip line = [] then (acc, some rest)
    else if line.contains 58 then
      scanHeaders rest
        (pyDictInsert (pyStrip (splitFirstAt 58 line).1) (pyStrip (splitFirstAt 58 line).2) acc)
    else scanHeaders rest acc

/-- The decision `process_http_request` reaches before any origin I/O:
either an error response (status and reason of the
`create_error_response` call), the CONNECT stub, or a
`make_http_request` call with its computed arguments. -/
inductive ProcResult where
  | err (status : Nat) (reason : List Nat)
  | connectStub
  | fetchCall (method host : List Nat) (port : Nat) (path : List Nat)
      (headers : List (List Nat × List Nat)) (body : List Nat) (useSsl : Bool)
deriving DecidableEq

/-- Steps 4–6 of `process_http_request` (after target normalization):
URL parse and hostname check, port computation (`parsed_url.port or
default`, where an unparsable port raises `ValueError` into the generic
`except` clause — that exception's CPython message is abstracted here),
path+query assembly, header/body extraction, and removal of the
`proxy-connection` / `proxy-authorization` case variants produced by the
code's `pop(h) / pop(h.title()) / pop(h.upper()) / pop(h.lower())` calls
on those two literals.  `restLines` is `lines[1:]`. -/
def processUrl (method url : List Nat) (restLines : List (List Nat)) : ProcResult :=
  let u := pyUrlparseHttp url
  if u.hostLower = [] then .err 400 (strCp "Bad Request - Invalid URL: " ++ url)
  else if u.portText ≠ [] ∧ ¬(allDigits u.portText ∧ digitsToNat u.portText ≤ 65535) then
    .err 500 (strCp "Internal Server Error: invalid port in URL")
  else
    let isHttps := u.scheme = strCp "https"
    let port := if u.portText = [] ∨ digitsToNat u.portText = 0 then
        (if isHttps then 443 else 80) else digitsToNat u.portText
    let path0 := u.path ++ (if u.query ≠ [] then strCp "?" ++ u.query else [])
    let path := if path0 = [] then strCp "/" else path0
    let hb := scanHeaders restLines []
    let body := match hb.2 with
      | some bls => if bls ≠ [] then utf8Encode (pyJoinCRLF bls) else []
      | none => []
    let headers :=
      pyDictRemove (strCp "proxy-connection") (pyDictRemove (strCp "Proxy-Connection")
        (pyDictRemove (strCp "PROXY-CONNECTION") (pyDictRemove (strCp "proxy-authorization")
          (pyDictRemove (strCp "Proxy-Authorization")
            (pyDictRemove (strCp "PROXY-AUTHORIZATION") hb.1)))))
    .fetchCall method u.hostLower port path headers body isHttps

/-- Step 3 of `process_http_request`: accept an absolute `http://` or
`https://` target, reject an origin-form target starting with `/`, and
fall back to prepending `http://` otherwise. -/
def processTarget (method url0 : List Nat) (restLines : List (List Nat)) : ProcResult :=
  if startsWithCp (strCp "http://") url0 || startsWithCp (strCp "https://") url0 then
    processUrl method url0 restLines
  else if startsWithCp (strCp "/") url0 then
    .err 400 (strCp "Bad Request - This is a proxy server. Configure your browser to use http://localhost:8080 as HTTP/HTTPS proxy, or use curl -x http://localhost:8080 <URL>")
  else processUrl method (strCp "http://" ++ url0) restLines

/-- The parsing phase of `process_http_request` from `server/server.py`:
decode the payload as UTF-8 with replacement, split on CRLF, parse and
validate the request line (`METHOD SP TARGET SP VERSION` via
`split(' ')`), dispatch CONNECT, then continue with `processTarget`. -/
def processParse (payload : List Nat) : ProcResult :=
  match splitCRLF (utf8DecodeReplace payload) with
  | [] => .err 400 (strCp "Bad Request - Empty request")
  | line0 :: restLines =>
    let requestLine := pyStrip line0
    if requestLine = [] then .err 400 (strCp "Bad Request - Empty request line")
    else
      match splitChar 32 requestLine with
      | [method, url0, _] =>
        if asciiUpper method = strCp "CONNECT" then .connectStub
        else processTarget method url0 restLines
      | _ => .err 400 (strCp "Bad Request - Invalid request line: " ++ requestLine)

/-- Embeds `make_http_request` from `server/server.py`: invoke the origin
fetch oracle; on success reassemble the wire response (status line,
re-derived `Content-Length`, `Connection: close`, the origin headers other
than `Connection` / `Transfer-Encoding` / `Content-Length`, an empty
line element, then the body); on each caught exception produce the
corresponding synthetic error response. -/
def makeHttpRequest (fetch : FetchFn) (method host : List Nat) (port : Nat)
    (path : List Nat) (headers : List (List Nat × List Nat)) (body : List Nat)
    (useSsl : Bool) : List Nat :=
  match fetch method host port path headers body useSsl with
  | .success status reason respHeaders respBody =>
    utf8Encode (pyJoinCRLF ((strCp "HTTP/1.1 " ++ natCp status ++ strCp " " ++ reason) ::
      (strCp "Content-Length: " ++ natCp respBody.length) ::
      strCp "Connection: close" ::
      (((respHeaders.filter fun hv =>
          !([strCp "connection", strCp "transfer-encoding",
             strCp "content-length"].contains (asciiLower hv.1))).map
        fun hv => hv.1 ++ strCp ": " ++ pyStrip hv.2) ++ [[]]))) ++ respBody
  | .timeout => createErrorResponse 504 (strCp "Gateway Timeout")
  | .dnsFailure => createErrorResponse 502 (strCp "Bad Gateway - DNS resolution failed: " ++ host)
  | .refused =>
    createErrorResponse 502 (strCp "Bad Gateway - Connection refused: " ++ host ++
      strCp ":" ++ natCp port)
  | .sslFailure msg => createErrorResponse 502 (strCp "Bad Gateway - SSL error: " ++ msg)
  | .otherFailure msg => createErrorResponse 502 (strCp "Bad Gateway: " ++ msg)

/-- Embeds `process_http_request` from `server/server.py`: the parse phase
followed by the CONNECT stub, an error response, or the origin fetch. -/
def processHttpRequest (fetch : FetchFn) (payload : List Nat) : List Nat :=
  match processParse payload with
  | .err s r => createErrorResponse s r
  | .connectStub => handleConnectMethod
  | .fetchCall m h p path hs b ssl => makeHttpRequest fetch m h p path hs b ssl

/-- Embeds the per-connection loop of `handle_ship_connection` from
`server/server.py` over the list of frames arriving on the link: a
non-REQUEST frame is skipped with a warning, a REQUEST frame is processed
and answered with exactly one RESPONSE frame; the loop ends at
end-of-stream. -/
def handleShipConnection (fetch : FetchFn) : List (Nat × List Nat) → List (Nat × List Nat)
  | [] => []
  | (t, p) :: rest =>
    if t = MSG_REQUEST then
      (MSG_RESPONSE, processHttpRequest fetch p) :: handleShipConnection fetch rest
    else handleShipConnection fetch rest

/-- The 9 characters `HTTP/1.1 ` are ASCII, so they UTF-8-encode to
themselves. -/
theorem utf8Encode_http9 : utf8Encode (strCp "HTTP/1.1 ") = strCp "HTTP/1.1 " := by decide

/-- Any bytes of the form `encode("HTTP/1.1 " + tail) + more` begin with
`HTTP/1.1 `. -/
theorem take9_of_http (tail bs : List Nat) :
    ((utf8Encode (strCp "HTTP/1.1 " ++ tail)) ++ bs).take 9 = strCp "HTTP/1.1 " := by
  rw [utf8Encode_append, utf8Encode_http9, List.append_assoc]
  have h9 : (strCp "HTTP/1.1 ").length = 9 := by decide
  rw [← h9, List.take_left]

/-- Specialization of `take9_of_http` without a trailing body. -/
theorem take9_of_http' (tail : List Nat) :
    (utf8Encode (strCp "HTTP/1.1 " ++ tail)).take 9 = strCp "HTTP/1.1 " := by
  have := take9_of_http tail []
  simpa using this

/-- Every synthetic error response begins with `HTTP/1.1 `. -/
theorem take9_createErrorResponse (s : Nat) (r : List Nat) :
    (createErrorResponse s r).take 9 = strCp "HTTP/1.1 " := by
  unfold createErrorResponse
  simp only [List.append_assoc]
  exact take9_of_http' _

/-- Unfolding equation of `pyJoinCRLF` on a list of at least two pieces. -/
theorem pyJoinCRLF_cons_cons (a b : List Nat) (l : List (List Nat)) :
    pyJoinCRLF (a :: b :: l) = a ++ 13 :: 10 :: pyJoinCRLF (b :: l) := rfl

/-- Every `make_http_request` result — origin success or any caught
exception — begins with `HTTP/1.1 `. -/
theorem take9_makeHttpRequest (fetch : FetchFn) (m h : List Nat) (p : Nat)
    (path : List Nat) (hs : List (List Nat × List Nat)) (b : List Nat) (ssl : Bool) :
    (makeHttpRequest fetch m h p path hs b ssl).take 9 = strCp "HTTP/1.1 " := by
  unfold makeHttpRequest
  cases hf : fetch m h p path hs b ssl with
  | success status reason respHeaders respBody =>
    dsimp only
    rw [pyJoinCRLF_cons_cons]
    simp only [List.append_assoc, List.cons_append]
    exact take9_of_http _ _
  | timeout => exact take9_createErrorResponse _ _
  | dnsFailure => exact take9_createErrorResponse _ _
  | refused => exact take9_createErrorResponse _ _
  | sslFailure msg => exact take9_createErrorResponse _ _
  | otherFailure msg => exact take9_createErrorResponse _ _

/-- Every `process_http_request` result begins with `HTTP/1.1 `. -/
theorem take9_processHttpRequest (fetch : FetchFn) (payload : List Nat) :
    (processHttpRequest fetch payload).take 9 = strCp "HTTP/1.1 " := by
  unfold processHttpRequest
  cases hp : processParse payload with
  | err s r => exact take9_createErrorResponse s r
  | connectStub =>
    exact (by decide : (handleConnectMethod).take 9 = strCp "HTTP/1.1 ")
  | fetchCall m h p path hs b ssl => exact take9_makeHttpRequest fetch m h p path hs b ssl

/-- The per-connection loop answers exactly the REQUEST frames, each with
a RESPONSE-typed frame. -/
theorem handleShipConnection_pairs (fetch : FetchFn) (frames : List (Nat × List Nat)) :
    (handleShipConnection fetch frames).length =
      (frames.filter fun fr => fr.1 == MSG_REQUEST).length ∧
    (handleShipConnection fetch frames).map Prod.fst =
      List.replicate (frames.filter fun fr => fr.1 == MSG_REQUEST).length MSG_RESPONSE := by
  induction frames with
  | nil => exact ⟨rfl, rfl⟩
  | cons fr rest ih =>
    obtain ⟨t, p⟩ := fr
    by_cases ht : t = MSG_REQUEST
    · subst ht
      rw [handleShipConnection]
      rw [if_pos rfl]
      simp only [List.filter_cons, List.length_cons, List.map_cons]
      rw [if_pos (by decide)]
      refine ⟨?_, ?_⟩
      · simp [ih.1]
      · simp only [List.length_cons, List.replicate, ih.2]
    · rw [handleShipConnection, if_neg ht]
      simp only [List.filter_cons]
      rw [if_neg (by simpa using ht)]
      exact ih

/-- Claim C3: one REQUEST in always yields one RESPONSE out, and every
produced response — synthetic error responses for all failure modes
included — is an HTTP response, never a transport-level failure: over any
incoming frame list the per-connection loop answers exactly the REQUEST
frames, each with a frame of type RESPONSE, and for every payload and
every origin outcome the produced bytes begin with `HTTP/1.1 `. -/
theorem offshore_one_request_one_response (fetch : FetchFn)
    (frames : List (Nat × List Nat)) (payload : List Nat) :
    (handleShipConnection fetch frames).length =
      (frames.filter fun fr => fr.1 == MSG_REQUEST).length ∧
    (handleShipConnection fetch frames).map Prod.fst =
      List.replicate (frames.filter fun fr => fr.1 == MSG_REQUEST).length MSG_RESPONSE ∧
    (processHttpRequest fetch payload).take 9 = strCp "HTTP/1.1 " :=
  ⟨(handleShipConnection_pairs fetch frames).1,
   (handleShipConnection_pairs fetch frames).2,
   take9_processHttpRequest fetch payload⟩

/-- Claim C8: for every request payload whose (3-part) request line has a
method that uppercases to CONNECT — whatever the target — the offshore
response is byte-exactly the literal
`HTTP/1.1 200 Connection Established\r\n\r\n`. -/
theorem connect_stub_exact (fetch : FetchFn) (payload m u v : List Nat)
    (hparts : splitChar 32 (pyStrip ((splitCRLF (utf8DecodeReplace payload)).headD [])) =
      [m, u, v])
    (hm : asciiUpper m = strCp "CONNECT") :
    processHttpRequest fetch payload = strCp "HTTP/1.1 200 Connection Established\r\n\r\n" := by
  obtain ⟨line0, restLines, hsp⟩ : ∃ a as, splitCRLF (utf8DecodeReplace payload) = a :: as := by
    cases hq : splitCRLF (utf8DecodeReplace payload) with
    | nil => exact absurd hq (splitCRLF_ne_nil _)
    | cons a as => exact ⟨a, as, rfl⟩
  rw [hsp] at hparts
  simp only [List.headD_cons] at hparts
  have hreq : pyStrip line0 ≠ [] := by
    intro hnil
    rw [hnil, show splitChar 32 ([] : List Nat) = [[]] from rfl] at hparts
    simp at hparts
  have hp : processParse payload = ProcResult.connectStub := by
    unfold processParse
    rw [hsp]
    dsimp only
    rw [if_neg hreq, hparts]
    dsimp only
    rw [if_pos hm]
  unfold processHttpRequest
  rw [hp]
  show handleConnectMethod = strCp "HTTP/1.1 200 Connection Established\r\n\r\n"
  decide

/-- Witness for C8 at `CONNECT example.com:443 HTTP/1.1` and an arbitrary
concrete fetch oracle (which the CONNECT path never consults). -/
theorem connect_stub_exact_witness :
    processHttpRequest (fun _ _ _ _ _ _ _ => FetchOutcome.timeout)
        (strCp "CONNECT example.com:443 HTTP/1.1\r\n\r\n") =
      strCp "HTTP/1.1 200 Connection Established\r\n\r\n" :=
  connect_stub_exact (fun _ _ _ _ _ _ _ => FetchOutcome.timeout)
    (strCp "CONNECT example.com:443 HTTP/1.1\r\n\r\n")
    (strCp "CONNECT") (strCp "example.com:443") (strCp "HTTP/1.1")
    (by decide) (by decide)

/-- Counterexample to claim C9 as stated: for the REQUEST payload
`POST http://x/y HTTP/1.1\r\nH: a\r\n\r\n` followed by the single
non-UTF-8 byte `0xFF`, the raw bytes after the first CRLF CRLF are `[255]`,
but the body the offshore parse hands to the origin fetch is
`[239, 191, 189]` — the UTF-8 encoding of the U+FFFD replacement character
produced by `decode('utf-8', errors='replace')` and re-encoded by
`body.encode('utf-8')` — so the forwarded body is not the raw suffix. -/
theorem offshore_body_not_raw_counterexample :
    processParse (strCp "POST http://x/y HTTP/1.1\r\nH: a\r\n\r\n" ++ [255]) =
      ProcResult.fetchCall (strCp "POST") (strCp "x") 80 (strCp "/y")
        [(strCp "H", strCp "a")] [239, 191, 189] false ∧
    ([239, 191, 189] : List Nat) ≠ [255] := ⟨by decide, by decide⟩

/-- Claim C9 (amended): the forwarded body is the UTF-8 re-encoding of the
replacement-decoded text after the header block, not the raw payload
bytes; it coincides with the raw suffix when those bytes are ASCII.  For a
well-formed request head and any ASCII body (CRLFs inside it included),
the parse forwards exactly that body. -/
theorem offshore_body_ascii (body : List Nat) (hascii : ∀ b ∈ body, b < 128) :
    processParse (strCp "POST http://x/y HTTP/1.1\r\nH: a\r\n\r\n" ++ body) =
      ProcResult.fetchCall (strCp "POST") (strCp "x") 80 (strCp "/y")
        [(strCp "H", strCp "a")] body false := by
  have hd : utf8DecodeReplace (strCp "POST http://x/y HTTP/1.1\r\nH: a\r\n\r\n" ++ body) =
      strCp "POST http://x/y HTTP/1.1\r\nH: a\r\n\r\n" ++ body := by
    apply utf8DecodeReplace_ascii
    intro b hb
    rcases List.mem_append.mp hb with hb | hb
    · exact (by decide : ∀ x ∈ strCp "POST http://x/y HTTP/1.1\r\nH: a\r\n\r\n", x < 128) b hb
    · exact hascii b hb
  have e : strCp "POST http://x/y HTTP/1.1\r\nH: a\r\n\r\n" ++ body =
      strCp "POST http://x/y HTTP/1.1" ++ 13 :: 10 ::
        (strCp "H: a" ++ 13 :: 10 :: 13 :: 10 :: body) := rfl
  have hsplit : splitCRLF (strCp "POST http://x/y HTTP/1.1\r\nH: a\r\n\r\n" ++ body) =
      strCp "POST http://x/y HTTP/1.1" :: strCp "H: a" :: [] :: splitCRLF body := by
    rw [e, splitCRLF_line (strCp "POST http://x/y HTTP/1.1") (by decide),
      splitCRLF_line (strCp "H: a") (by decide), splitCRLF_crlf]
  have hscan : scanHeaders (strCp "H: a" :: [] :: splitCRLF body) [] =
      ([(strCp "H", strCp "a")], some (splitCRLF body)) := by
    rw [scanHeaders, if_neg (by decide), if_pos (by decide)]
    rw [show pyDictInsert (pyStrip (splitFirstAt 58 (strCp "H: a")).1)
        (pyStrip (splitFirstAt 58 (strCp "H: a")).2) [] = [(strCp "H", strCp "a")] from by decide]
    rw [scanHeaders, if_pos (by decide)]
  unfold processParse
  rw [hd, hsplit]
  dsimp only
  rw [if_neg (by decide : ¬ pyStrip (strCp "POST http://x/y HTTP/1.1") = [])]
  rw [show splitChar 32 (pyStrip (strCp "POST http://x/y HTTP/1.1")) =
      [strCp "POST", strCp "http://x/y", strCp "HTTP/1.1"] from by decide]
  dsimp only
  rw [if_neg (by decide : ¬ asciiUpper (strCp "POST") = strCp "CONNECT")]
  unfold processTarget
  rw [if_pos (by decide)]
  unfold processUrl
  rw [show pyUrlparseHttp (strCp "http://x/y") =
      ⟨strCp "http", strCp "x", [], strCp "/y", []⟩ from by decide]
  dsimp only
  rw [if_neg (by decide : ¬ strCp "x" = []), if_neg (by decide)]
  rw [hscan]
  dsimp only
  rw [if_pos (splitCRLF_ne_nil body), pyJoinCRLF_splitCRLF, utf8Encode_ascii body hascii]
  congr 1

/-- Witness for the amended C9 at the concrete ASCII body `AB\r\nCD`. -/
theorem offshore_body_ascii_witness :
    processParse (strCp "POST http://x/y HTTP/1.1\r\nH: a\r\n\r\n" ++ strCp "AB\r\nCD") =
      ProcResult.fetchCall (strCp "POST") (strCp "x") 80 (strCp "/y")
        [(strCp "H", strCp "a")] (strCp "AB\r\nCD") false :=
  offshore_body_ascii (strCp "AB\r\nCD") (by decide)

/-! ## Ship client model: `client/client.py` -/

/-- One socket-level I/O event performed by the multiplexer worker, in the
order it happens: a `connect_to_offshore` call with its result, a
`send_message` call with its result, a `read_message` call with its
result. -/
inductive Ev where
  | connectA (ok : Bool)
  | sendA (ok : Bool)
  | readA (res : Option (Nat × List Nat))
deriving DecidableEq

/-- Outcome written into a submission's `response_container` before its
`response_event` is set: either response bytes in `'data'` or the error
string in `'error'`. -/
inductive Outcome where
  | response (data : List Nat)
  | error (msg : String)
deriving DecidableEq

/-- State of the multiplexer worker in `process_requests`.  `connected`
models `self.offshore_socket is not None`.  The three scripts supply, in
order, the results of successive `connect_to_offshore`, `send_message` and
`read_message` calls on the link (an exhausted script yields failure);
`wire` accumulates the bytes successfully written on the offshore socket
(a failed `sendall` is modelled as writing nothing); `trace` records every
I/O event. -/
structure WorkerState where
  connected : Bool
  connectScript : List Bool
  sendScript : List Bool
  readScript : List (Option (Nat × List Nat))
  wire : List Nat
  trace : List Ev
deriving DecidableEq

/-- A `connect_to_offshore()` call inside the worker: consume the next
scripted result; on success the socket is set, on failure it is `None`. -/
def doConnect (st : WorkerState) : Bool × WorkerState :=
  let ok := st.connectScript.headD false
  (ok, { st with connected := ok, connectScript := st.connectScript.tail,
                 trace := st.trace ++ [Ev.connectA ok] })

/-- A `send_message(sock, MSG_REQUEST, data)` call: consume the next
scripted result; a successful call appends the REQUEST frame to the wire. -/
def doSend (data : List Nat) (st : WorkerState) : Bool × WorkerState :=
  let ok := st.sendScript.headD false
  (ok, { st with sendScript := st.sendScript.tail,
                 wire := if ok then st.wire ++ frameBytes MSG_REQUEST data else st.wire,
                 trace := st.trace ++ [Ev.sendA ok] })

/-- A `read_message(sock)` call: consume the next scripted result; `none`
models the `(None, None)` return. -/
def doRead (st : WorkerState) : Option (Nat × List Nat) × WorkerState :=
  let r := st.readScript.headD none
  (r, { st with readScript := st.readScript.tail, trace := st.trace ++ [Ev.readA r] })

/-- The tail of one worker iteration after a successful send: read one
frame; accept it only when its type is `MSG_RESPONSE` (and the payload is
not `None`); otherwise record the invalid-response error and close the
socket (`close_connection`; `self.offshore_socket = None`). -/
def afterSend (st : WorkerState) : WorkerState × Outcome :=
  let (r, st') := doRead st
  match r with
  | some (t, p) =>
    if t = MSG_RESPONSE then (st', Outcome.response p)
    else ({ st' with connected := false }, Outcome.error "Invalid response from offshore proxy")
  | none => ({ st' with connected := false }, Outcome.error "Invalid response from offshore proxy")

/-- One iteration of the `process_requests` loop body for one dequeued
request item (`client/client.py` lines 333–373): ensure a connection
(reconnecting when the socket is `None`), send the REQUEST frame — on
failure close the socket, reconnect once and retry the send exactly once —
then read the response frame. -/
def processItem (st0 : WorkerState) (data : List Nat) : WorkerState × Outcome :=
  let c := if st0.connected then (true, st0) else doConnect st0
  if ¬ c.1 then (c.2, Outcome.error "Cannot connect to offshore proxy")
  else
    let s1 := doSend data c.2
    if s1.1 then afterSend s1.2
    else
      let c2 := doConnect { s1.2 with connected := false }
      if c2.1 then
        let s2 := doSend data c2.2
        if s2.1 then afterSend s2.2
        else (s2.2, Outcome.error "Failed to send request after reconnection")
      else (c2.2, Outcome.error "Lost connection to offshore proxy")

/-- The worker loop over the dequeued items in dequeue order, collecting
each submission's outcome (the worker always signals the item's
`response_event` and proceeds to the next item). -/
def processQueue (st : WorkerState) : List (List Nat) → WorkerState × List Outcome
  | [] => (st, [])
  | d :: ds =>
    let r := processItem st d
    let rest := processQueue r.1 ds
    (rest.1, r.2 :: rest.2)

/-- One happy-path worker iteration: connected, the send succeeds, and a
RESPONSE frame is read: the REQUEST frame lands on the wire, the item
completes with the response payload, and exactly one send then one read
happen. -/
theorem processItem_happy (cs : List Bool) (ss : List Bool)
    (rds : List (Option (Nat × List Nat))) (w : List Nat) (tr : List Ev) (d r : List Nat) :
    processItem ⟨true, cs, true :: ss, some (MSG_RESPONSE, r) :: rds, w, tr⟩ d =
      (⟨true, cs, ss, rds, w ++ frameBytes MSG_REQUEST d,
        tr ++ [Ev.sendA true, Ev.readA (some (MSG_RESPONSE, r))]⟩,
       Outcome.response r) := by
  simp [processItem, doSend, doRead, afterSend, MSG_RESPONSE, List.append_assoc]

/-- Claim C1: FIFO on the wire.  For submissions dequeued in order
`reqs = s1..sN`, with the link connected and every send and read
succeeding (the reads delivering RESPONSE frames with payloads
`resps = r1..rN`), the bytes written to the offshore socket are exactly
`frame(s1) ++ ... ++ frame(sN)`, the trace interleaves as
send(s1), read(r1), send(s2), read(r2), ... — each REQUEST frame fully
written and its RESPONSE fully read before the next submission starts —
and the outcomes are delivered in the same dequeue order, the pairing
being purely positional (no identifier exists in `frameBytes`). -/
theorem worker_fifo_wire_order (reqs : List (List Nat)) :
    ∀ (resps : List (List Nat)) (cs : List Bool) (w : List Nat) (tr : List Ev),
    reqs.length = resps.length →
    processQueue ⟨true, cs, List.replicate reqs.length true,
        resps.map (fun r => some (MSG_RESPONSE, r)), w, tr⟩ reqs =
      (⟨true, cs, [], [], w ++ (reqs.map (frameBytes MSG_REQUEST)).flatten,
        tr ++ ((reqs.zip resps).map (fun pr =>
          [Ev.sendA true, Ev.readA (some (MSG_RESPONSE, pr.2))])).flatten⟩,
       resps.map Outcome.response) := by
  induction reqs with
  | nil =>
    intro resps cs w tr hlen
    cases resps with
    | nil => simp [processQueue]
    | cons r rs => simp at hlen
  | cons d ds ih =>
    intro resps cs w tr hlen
    cases resps with
    | nil => simp at hlen
    | cons r rs =>
      have hlen' : ds.length = rs.length := by simpa using hlen
      rw [processQueue]
      rw [show List.replicate (d :: ds).length true = true :: List.replicate ds.length true
        from rfl]
      rw [show (r :: rs).map (fun x => some (MSG_RESPONSE, x)) =
        some (MSG_RESPONSE, r) :: rs.map (fun x => some (MSG_RESPONSE, x)) from rfl]
      rw [processItem_happy]
      rw [ih rs cs (w ++ frameBytes MSG_REQUEST d)
        (tr ++ [Ev.sendA true, Ev.readA (some (MSG_RESPONSE, r))]) hlen']
      simp [List.append_assoc]

/-- Claim C5: on a REQUEST-frame write failure the worker closes the
socket, reconnects, and retries the write exactly once (the trace shows
precisely two send attempts with one reconnect between them); when the
retry also fails the submission completes with the send-failure error and
the queue processing continues with the remaining submissions; when the
reconnection itself fails the submission completes with the
lost-connection error. -/
theorem worker_send_retry_once (d : List Nat) (cs : List Bool) (ss : List Bool)
    (rds : List (Option (Nat × List Nat))) (w : List Nat) (tr : List Ev) :
    processItem ⟨true, true :: cs, false :: false :: ss, rds, w, tr⟩ d =
      (⟨true, cs, ss, rds, w, tr ++ [Ev.sendA false, Ev.connectA true, Ev.sendA false]⟩,
       Outcome.error "Failed to send request after reconnection") ∧
    (∀ rest, processQueue ⟨true, true :: cs, false :: false :: ss, rds, w, tr⟩ (d :: rest) =
      ((processQueue ⟨true, cs, ss, rds, w,
          tr ++ [Ev.sendA false, Ev.connectA true, Ev.sendA false]⟩ rest).1,
       Outcome.error "Failed to send request after reconnection" ::
         (processQueue ⟨true, cs, ss, rds, w,
           tr ++ [Ev.sendA false, Ev.connectA true, Ev.sendA false]⟩ rest).2)) ∧
    processItem ⟨true, false :: cs, false :: ss, rds, w, tr⟩ d =
      (⟨false, cs, ss, rds, w, tr ++ [Ev.sendA false, Ev.connectA false]⟩,
       Outcome.error "Lost connection to offshore proxy") := by
  have h1 : processItem ⟨true, true :: cs, false :: false :: ss, rds, w, tr⟩ d =
      (⟨true, cs, ss, rds, w, tr ++ [Ev.sendA false, Ev.connectA true, Ev.sendA false]⟩,
       Outcome.error "Failed to send request after reconnection") := by
    simp [processItem, doConnect, doSend, List.append_assoc]
  refine ⟨h1, fun rest => ?_, ?_⟩
  · rw [processQueue, h1]
  · simp [processItem, doConnect, doSend, List.append_assoc]

/-- A worker iteration that starts with no socket always begins with a
`connect_to_offshore` attempt. -/
theorem processItem_disconnected_connects (st : WorkerState) (d : List Nat)
    (h : st.connected = false) :
    ∃ tl, ((processItem st d).1).trace =
      st.trace ++ Ev.connectA (st.connectScript.headD false) :: tl := by
  obtain ⟨conn, cs, ss, rds, w, tr⟩ := st
  simp only at h
  subst h
  match cs with
  | [] => exact ⟨[], by simp [processItem, doConnect]⟩
  | false :: cs' => exact ⟨[], by simp [processItem, doConnect]⟩
  | true :: cs' =>
    have readCase : ∀ (cs₂ : List Bool) (ss₂ : List Bool) (w₂ : List Nat) (tr₂ : List Ev)
        (pre : List Ev),
        tr₂ = tr ++ Ev.connectA true :: pre →
        ∃ tl, ((afterSend ⟨true, cs₂, ss₂, rds, w₂, tr₂⟩).1).trace =
          tr ++ Ev.connectA true :: tl := by
      intro cs₂ ss₂ w₂ tr₂ pre hpre
      subst hpre
      refine ⟨pre ++ [Ev.readA (rds.headD none)], ?_⟩
      match rds with
      | [] => simp [afterSend, doRead, List.append_assoc]
      | none :: rds' => simp [afterSend, doRead, List.append_assoc]
      | some (t, p) :: rds' =>
        by_cases ht : t = MSG_RESPONSE
        · simp [afterSend, doRead, ht, List.append_assoc]
        · simp [afterSend, doRead, ht, List.append_assoc]
    match ss with
    | true :: ss' =>
      have h1 : processItem ⟨false, true :: cs', true :: ss', rds, w, tr⟩ d =
          afterSend ⟨true, cs', ss', rds, w ++ frameBytes MSG_REQUEST d,
            tr ++ Ev.connectA true :: [Ev.sendA true]⟩ := by
        simp [processItem, doConnect, doSend, afterSend, List.append_assoc]
      rw [h1]
      exact readCase cs' ss' _ _ [Ev.sendA true] rfl
    | [] =>
      match cs' with
      | [] => exact ⟨[Ev.sendA false, Ev.connectA false],
          by simp [processItem, doConnect, doSend, List.append_assoc]⟩
      | false :: cs'' => exact ⟨[Ev.sendA false, Ev.connectA false],
          by simp [processItem, doConnect, doSend, List.append_assoc]⟩
      | true :: cs'' => exact ⟨[Ev.sendA false, Ev.connectA true, Ev.sendA false],
          by simp [processItem, doConnect, doSend, List.append_assoc]⟩
    | false :: ss' =>
      match cs' with
      | [] => exact ⟨[Ev.sendA false, Ev.connectA false],
          by simp [processItem, doConnect, doSend, List.append_assoc]⟩
      | false :: cs'' => exact ⟨[Ev.sendA false, Ev.connectA false],
          by simp [processItem, doConnect, doSend, List.append_assoc]⟩
      | true :: cs'' =>
        match ss' with
        | [] => exact ⟨[Ev.sendA false, Ev.connectA true, Ev.sendA false],
            by simp [processItem, doConnect, doSend, List.append_assoc]⟩
        | false :: ss'' => exact ⟨[Ev.sendA false, Ev.connectA true, Ev.sendA false],
            by simp [processItem, doConnect, doSend, List.append_assoc]⟩
        | true :: ss'' =>
          have h1 : processItem ⟨false, true :: true :: cs'', false :: true :: ss'', rds, w, tr⟩ d =
              afterSend ⟨true, cs'', ss'', rds, w ++ frameBytes MSG_REQUEST d,
                tr ++ Ev.connectA true ::
                  [Ev.sendA false, Ev.connectA true, Ev.sendA true]⟩ := by
            simp [processItem, doConnect, doSend, afterSend, List.append_assoc]
          rw [h1]
          exact readCase cs'' ss'' _ _ [Ev.sendA false, Ev.connectA true, Ev.sendA true] rfl

/-- Claim C6: after a successful REQUEST write, a read that does not
deliver a RESPONSE-typed frame — `(None, None)` or any other type —
invalidates the link (socket closed and cleared) and completes the
submission with the invalid-response error; the trace shows exactly one
read and no retry or resynchronization, and the very next submission
starts with a fresh reconnection attempt. -/
theorem worker_invalid_response_teardown (d : List Nat) (r : Option (Nat × List Nat))
    (cs : List Bool) (ss : List Bool) (rds : List (Option (Nat × List Nat)))
    (w : List Nat) (tr : List Ev)
    (hr : ∀ p, r ≠ some (MSG_RESPONSE, p)) :
    processItem ⟨true, cs, true :: ss, r :: rds, w, tr⟩ d =
      (⟨false, cs, ss, rds, w ++ frameBytes MSG_REQUEST d,
        tr ++ [Ev.sendA true, Ev.readA r]⟩,
       Outcome.error "Invalid response from offshore proxy") ∧
    ∀ d', ∃ tl, ((processItem ⟨false, cs, ss, rds, w ++ frameBytes MSG_REQUEST d,
        tr ++ [Ev.sendA true, Ev.readA r]⟩ d').1).trace =
      (tr ++ [Ev.sendA true, Ev.readA r]) ++ Ev.connectA (cs.headD false) :: tl := by
  constructor
  · match r with
    | none => simp [processItem, doSend, doRead, afterSend, List.append_assoc]
    | some (t, p) =>
      have ht : ¬ t = MSG_RESPONSE := fun h => hr p (by rw [h])
      simp [processItem, doSend, doRead, afterSend, ht, List.append_assoc]
  · intro d'
    exact processItem_disconnected_connects
      ⟨false, cs, ss, rds, w ++ frameBytes MSG_REQUEST d,
        tr ++ [Ev.sendA true, Ev.readA r]⟩ d' rfl

/-- The attempt loop of `connect_to_offshore` from 0-based attempt number
`attempt` up to `max_reconnect_attempts = 5`: whether some dial succeeded,
how many dials were made from this point on, and the waits performed
(`min(2 ** attempt, 10)` seconds after every failed attempt except the
last).  `dial` gives each `create_tcp_connection` outcome. -/
def connectAux (dial : Nat → Bool) (attempt : Nat) : Bool × Nat × List Nat :=
  if _h5 : 5 ≤ attempt then (false, 0, [])
  else if dial attempt then (true, 1, [])
  else
    let r := connectAux dial (attempt + 1)
    if attempt < 4 then (r.1, r.2.1 + 1, min (2 ^ attempt) 10 :: r.2.2)
    else (r.1, r.2.1 + 1, r.2.2)
termination_by 5 - attempt

/-- What one `connect_to_offshore()` call did: its boolean return, the
number of dial attempts, the waits between consecutive attempts, and the
resulting `self.reconnect_attempts` counter. -/
structure ConnectResult where
  success : Bool
  dials : Nat
  sleeps : List Nat
  reconnectAttempts : Nat
deriving DecidableEq

/-- Embeds `connect_to_offshore` from `client/client.py`: up to 5 dial
attempts with `min(2 ** attempt, 10)`-second waits between consecutive
attempts; on success `self.reconnect_attempts` is reset to 0 and `True`
is returned; on exhaustion the counter is left unchanged and the hard
failure `False` is reported to the caller. -/
def connectToOffshore (dial : Nat → Bool) (prevAttempts : Nat) : ConnectResult :=
  ⟨(connectAux dial 0).1, (connectAux dial 0).2.1, (connectAux dial 0).2.2,
   if (connectAux dial 0).1 then 0 else prevAttempts⟩

/-- Claim C7: connecting makes at most 5 dial attempts; the wait between
consecutive attempts is `min(2 ** attempt, 10)` seconds starting at
attempt 0 (so `1, 2, 4, 8` before attempts 2..5, the 10-second cap never
being reached within 5 attempts); anything short of success consumes all
5 attempts before the hard failure is reported; and on success the
reconnect attempt counter is reset to zero (otherwise left unchanged). -/
theorem connect_backoff (dial : Nat → Bool) (prevAttempts : Nat) :
    (connectToOffshore dial prevAttempts).dials ≤ 5 ∧
    (connectToOffshore dial prevAttempts).sleeps =
      (List.range ((connectToOffshore dial prevAttempts).dials - 1)).map
        (fun a => min (2 ^ a) 10) ∧
    (connectToOffshore dial prevAttempts).reconnectAttempts =
      (if (connectToOffshore dial prevAttempts).success then 0 else prevAttempts) ∧
    ((connectToOffshore dial prevAttempts).success = true ∨
      (connectToOffshore dial prevAttempts).dials = 5) := by
  cases h0 : dial 0 <;> cases h1 : dial 1 <;> cases h2 : dial 2 <;>
    cases h3 : dial 3 <;> cases h4 : dial 4 <;>
    simp [connectToOffshore, connectAux, h0, h1, h2, h3, h4] <;>
    decide


/-- Witness for C1: two dequeued requests `[1]` and `[2]` answered by
`[10]` and `[20]`. -/
theorem worker_fifo_wire_order_witness :
    processQueue ⟨true, [], List.replicate ([[1], [2]] : List (List Nat)).length true,
        ([[10], [20]] : List (List Nat)).map (fun r => some (MSG_RESPONSE, r)), [], []⟩
        [[1], [2]] =
      (⟨true, [], [], [], (([[1], [2]] : List (List Nat)).map (frameBytes MSG_REQUEST)).flatten,
        ((([[1], [2]] : List (List Nat)).zip [[10], [20]]).map (fun pr =>
          [Ev.sendA true, Ev.readA (some (MSG_RESPONSE, pr.2))])).flatten⟩,
       ([[10], [20]] : List (List Nat)).map Outcome.response) := by
  have := worker_fifo_wire_order [[1], [2]] [[10], [20]] [] [] [] rfl
  simpa using this

/-- Witness for C6 at a concrete wrong-typed frame (type 0 instead of
RESPONSE). -/
theorem worker_invalid_response_teardown_witness :
    processItem ⟨true, [true], true :: [], some (0, [70]) :: [], [], []⟩ [7] =
      (⟨false, [true], [], [], [] ++ frameBytes MSG_REQUEST [7],
        [] ++ [Ev.sendA true, Ev.readA (some (0, [70]))]⟩,
       Outcome.error "Invalid response from offshore proxy") ∧
    ∀ d', ∃ tl, ((processItem ⟨false, [true], [], [], [] ++ frameBytes MSG_REQUEST [7],
        [] ++ [Ev.sendA true, Ev.readA (some (0, [70]))]⟩ d').1).trace =
      ([] ++ [Ev.sendA true, Ev.readA (some (0, [70]))]) ++
        Ev.connectA (([true] : List Bool).headD false) :: tl :=
  worker_invalid_response_teardown [7] (some (0, [70])) [true] [] [] [] []
    (fun p h => by simp [MSG_RESPONSE] at h)
